import Mathlib

/-!
Shallow embedding of `src/changelog.py` (git changelog generator).

The program is a linear pipeline:
`get_recent_commits` (git log, parsed by splitting on `"|"`) →
`get_commit_details` (three further git invocations per commit, numstat parsed
with the regex `(\d+|-)\s+(\d+|-)\s+(.+)`) →
dict-merge enrichment `{**commit, **details}` →
`prepare_prompt` (pure string templating) →
`generate_changelog` (one external API call).

External effects are modelled as environments of functions returning
`Except String String` (error = the exception / stderr text, ok = stdout /
response text).  Which git sub-commands were actually invoked is recorded as an
explicit call trace, and whether the external generation API was invoked is the
second component of `generate_changelog`'s result.  Python strings are modelled
as `String` / `List Char` (`str.strip`, `str.split` and the regex are
re-implemented character by character below, restricted to ASCII where Python
is Unicode-aware; none of the verified properties depend on non-ASCII input).
-/

namespace GitChangelog

/-- ASCII whitespace as recognized by Python's `str.strip` and the regex class
`\s` (space, tab, newline, carriage return, vertical tab, form feed). -/
def pyIsSpace (c : Char) : Bool :=
  c == ' ' || c == '\t' || c == '\n' || c == '\r' || c == '\x0b' || c == '\x0c'

/-- Python `str.strip()`: remove whitespace from both ends. -/
def pyStrip (cs : List Char) : List Char :=
  ((cs.dropWhile pyIsSpace).reverse.dropWhile pyIsSpace).reverse

/-- Python `str.split(sep)` for a one-character separator: `"".split(sep) = [""]`,
and every occurrence of `sep` starts a new field (empty fields are kept). -/
def pySplit (sep : Char) : List Char → List (List Char)
  | [] => [[]]
  | c :: rest =>
    if c = sep then [] :: pySplit sep rest
    else
      match pySplit sep rest with
      | [] => [[c]]
      | h :: t => (c :: h) :: t

/-- A parsed line of `git log --pretty=format:%H|%an|%ad|%s`
(the dictionary appended by `get_recent_commits`). -/
structure CommitSummary where
  hash : String
  author : String
  date : String
  message : String
deriving Repr, DecidableEq

/-- One iteration of the parsing loop of `get_recent_commits`: skip empty lines
(`if not line: continue`), split on `"|"` and keep the line only when the split
yields exactly four fields. -/
def parseLogLine (line : List Char) : Option CommitSummary :=
  if line.isEmpty then none
  else
    match pySplit '|' line with
    | [h, a, d, m] => some ⟨String.mk h, String.mk a, String.mk d, String.mk m⟩
    | _ => none

/-- `get_recent_commits`, with the result of the `git log` subprocess supplied
as an argument (`.error` = `CalledProcessError`, whose handler returns `[]`;
`.ok` = captured stdout).  On success the stdout is stripped, split on newlines
and each line parsed by `parseLogLine`, in order. -/
def get_recent_commits (logResult : Except String String) : List CommitSummary :=
  match logResult with
  | .error _ => []
  | .ok stdout => (pySplit '\n' (pyStrip stdout.data)).filterMap parseLogLine

/-- One entry of the `diff_stats` list built by `get_commit_details`:
`{"file": ..., "additions": ..., "deletions": ...}`.  Additions/deletions are
kept as the captured strings (`"12"`, or the literal `"-"` marker emitted by
git numstat for binary files). -/
structure FileChange where
  file : String
  additions : String
  deletions : String
deriving Repr, DecidableEq

/-- The group `(\d+|-)` of the numstat regex, matched at the head of the input:
a maximal nonempty run of digits, or else a single dash.  Returns the capture
and the remaining input.  (Shortening the digit run can never make the
following `\s+` succeed, since the next character would still be a digit, so
the maximal run is the regex's backtracking-complete behavior.) -/
def parseNumToken : List Char → Option (List Char × List Char)
  | [] => none
  | c :: rest =>
    if c.isDigit then
      some ((c :: rest).takeWhile Char.isDigit, (c :: rest).dropWhile Char.isDigit)
    else if c = '-' then some (['-'], rest)
    else none

/-- `re.match` of the pattern `(\d+|-)\s+(\d+|-)\s+(.+)` against one line of
numstat output, returning the three captures (additions, deletions, path).
The lines fed to this matcher come from splitting stdout on `'\n'`, so they
contain no newline and `.` matches every remaining character.  Backtracking
matters in exactly one place: when the second whitespace run extends to the end
of the line, `\s+` gives up its last character so that the greedy `(.+)` can
still match (the captured "path" is then that single whitespace character). -/
def reMatchNumstat (line : List Char) : Option (List Char × List Char × List Char) :=
  match parseNumToken line with
  | none => none
  | some (g1, r1) =>
    let w1 := r1.takeWhile pyIsSpace
    let r2 := r1.dropWhile pyIsSpace
    if w1.isEmpty then none
    else
      match parseNumToken r2 with
      | none => none
      | some (g2, r3) =>
        let w2 := r3.takeWhile pyIsSpace
        let r4 := r3.dropWhile pyIsSpace
        if w2.isEmpty then none
        else if r4.isEmpty then
          if 2 ≤ w2.length then some (g1, g2, w2.drop (w2.length - 1)) else none
        else some (g1, g2, r4)

/-- The numstat parsing loop of `get_commit_details`: strip the stdout, split
on newlines, and append a `FileChange` for every line the pattern matches
(group 1 = additions, group 2 = deletions, group 3 = file path). -/
def parse_numstat (stdout : String) : List FileChange :=
  (pySplit '\n' (pyStrip stdout.data)).filterMap fun line =>
    (reMatchNumstat line).map fun g =>
      { file := String.mk g.2.2, additions := String.mk g.1, deletions := String.mk g.2.1 }

/-- The dictionary returned by `get_commit_details` on success. -/
structure CommitDetail where
  hash : String
  full_message : String
  changes : String
  diff_stats : List FileChange
deriving Repr, DecidableEq

/-- The three `git show` sub-commands run per commit, as trace events. -/
inductive GitCall where
  | message (h : String)
  | nameStatus (h : String)
  | numstat (h : String)
deriving Repr, DecidableEq

/-- Environment of external `git` invocations: each returns stdout (`.ok`) or
raises `CalledProcessError` (`.error`, carrying the diagnostic text). -/
structure GitEnv where
  showMessage : String → Except String String
  showNameStatus : String → Except String String
  showNumstat : String → Except String String
  log : Int → Except String String

/-- `get_commit_details`: the three `git show` invocations run in sequence
inside one `try` block, so the first failure aborts the remaining invocations
and the handler returns the empty dictionary (modelled as `none`).  The second
component records which invocations were actually performed. -/
def get_commit_details (env : GitEnv) (commit_hash : String) :
    Option CommitDetail × List GitCall :=
  match env.showMessage commit_hash with
  | .error _ => (none, [.message commit_hash])
  | .ok msgOut =>
    match env.showNameStatus commit_hash with
    | .error _ => (none, [.message commit_hash, .nameStatus commit_hash])
    | .ok chOut =>
      match env.showNumstat commit_hash with
      | .error _ =>
        (none, [.message commit_hash, .nameStatus commit_hash, .numstat commit_hash])
      | .ok nsOut =>
        (some { hash := commit_hash
                full_message := String.mk (pyStrip msgOut.data)
                changes := String.mk (pyStrip chOut.data)
                diff_stats := parse_numstat nsOut },
         [.message commit_hash, .nameStatus commit_hash, .numstat commit_hash])

/-- The dict merge `{**commit, **details}` performed in `generate_changelog`.
`details` is either `{}` or has exactly the keys `hash`, `full_message`,
`changes`, `diff_stats` (the only two shapes `get_commit_details` produces), so
the merged dictionary is a summary plus an optional detail part, with the
detail's `hash` key overriding the summary's when present. -/
structure EnrichedCommit where
  hash : String
  author : String
  date : String
  message : String
  detail : Option CommitDetail
deriving Repr, DecidableEq

/-- `{**commit, **details}`. -/
def enrich (c : CommitSummary) (d : Option CommitDetail) : EnrichedCommit :=
  { hash := match d with | some dd => dd.hash | none => c.hash
    author := c.author
    date := c.date
    message := c.message
    detail := d }

/-- The enrichment loop of `generate_changelog`: each commit is merged with the
details fetched for its own hash. -/
def enrichAll (genv : GitEnv) (commits : List CommitSummary) : List EnrichedCommit :=
  commits.map fun c => enrich c (get_commit_details genv c.hash).1

/-- The fixed preamble of `prepare_prompt` (Python adjacent string literals
concatenated). -/
def promptPreamble : String :=
  "Based on the following git commit history, generate a user-friendly changelog that summarizes the changes in a way that would be meaningful to the end user. Git Commit History:\n"

/-- The fixed closing instruction of `prepare_prompt` (typo `focues` is
verbatim from the source). -/
def promptClosing : String :=
  "Please generate a changelog with clear sections (e.g., Features, Improvements, Bug Fixes) using markdown formatting. Provide a concise summary that focues on the changes that matter most to the end user."

/-- One `File:` line of the prompt:
`f"File: {stat['file']} (+" f"{stat['additions']} / -{stat['deletions']})\n"`. -/
def fileLine (s : FileChange) : String :=
  "File: " ++ s.file ++ " (+" ++ s.additions ++ " / -" ++ s.deletions ++ ")\n"

/-- The unconditional header lines emitted for every commit: truncated hash
(`commit['hash'][:8]`), author, date, subject message. -/
def summaryLines (c : EnrichedCommit) : String :=
  "Commit Hash: " ++ String.mk (c.hash.data.take 8) ++ "\n" ++
  "Author: " ++ c.author ++ "\n" ++
  "Date: " ++ c.date ++ "\n" ++
  "Message: " ++ c.message ++ "\n"

/-- The `File:` lines of one commit (`if commit["diff_stats"]:` guards the
loop, so an empty list contributes nothing). -/
def statLines (d : CommitDetail) : String :=
  if d.diff_stats.isEmpty then "" else String.join (d.diff_stats.map fileLine)

/-- The full block `prepare_prompt` appends for one commit: header lines, then
`Details:` only when `full_message` is present and differs from the subject
message, then the `File:` lines when `diff_stats` is present and nonempty, then
a blank line.  (`'full_message' in commit` and `'diff_stats' in commit` are
both equivalent to `c.detail.isSome`, since the merged detail part carries
exactly those keys together.) -/
def commitBlock (c : EnrichedCommit) : String :=
  "Commit Hash: " ++ String.mk (c.hash.data.take 8) ++ "\n" ++
  "Author: " ++ c.author ++ "\n" ++
  "Date: " ++ c.date ++ "\n" ++
  "Message: " ++ c.message ++ "\n" ++
  (match c.detail with
   | none => ""
   | some d =>
     (if d.full_message ≠ c.message then "Details: " ++ d.full_message ++ "\n" else "") ++
     (if d.diff_stats.isEmpty then "" else String.join (d.diff_stats.map fileLine))) ++
  "\n"

/-- `prepare_prompt`: preamble, one block per commit in input order, closing
instruction. -/
def prepare_prompt (commits : List EnrichedCommit) : String :=
  promptPreamble ++ String.join (commits.map commitBlock) ++ promptClosing

/-- Full external environment: the git invocations plus the generation API.
The API takes the assembled prompt and returns the generated text (`.ok`) or
raises (`.error`, carrying `str(e)`). -/
structure Env where
  git : GitEnv
  api : String → Except String String

/-- The fixed message returned when no commits are found. -/
def noHistoryMsg : String := "No commit history found or not in a git repository"

/-- `generate_changelog`.  First component: the value returned to the caller
(`none` models Python's implicit `None` — the success path of the source binds
`response` and then falls off the end of the function without returning it).
Second component: whether the external generation API was invoked. -/
def generate_changelog (env : Env) (n : Int) : Option String × Bool :=
  let commits := get_recent_commits (env.git.log n)
  if commits.isEmpty then
    (some noHistoryMsg, false)
  else
    let prompt := prepare_prompt (enrichAll env.git commits)
    match env.api prompt with
    | .error e => (some ("Error generating changelog: " ++ e), true)
    | .ok _ => (none, true)

end GitChangelog

namespace GitChangelog

/-- Concrete environment in which every external call succeeds: `git log`
lists one well-formed commit and the generation API returns a changelog text.
Used to evaluate the success path of `generate_changelog`. -/
def envSuccess : Env :=
  { git := { showMessage := fun _ => .ok "Add login\n\nImplements the login flow.\n"
             showNameStatus := fun _ => .ok "M\tsrc/app.py"
             showNumstat := fun _ => .ok "3\t1\tsrc/app.py"
             log := fun _ => .ok "aaaa1111|Alice|2024-01-01|Add login" }
    api := fun _ => .ok "## Changelog\n\n### Features\n- Added login" }

/-- Concrete environment whose first detail sub-fetch (`git show --format=%B`)
fails. -/
def envMsgFail : GitEnv :=
  { showMessage := fun _ => .error "fatal: bad object"
    showNameStatus := fun _ => .ok "M\tsrc/app.py"
    showNumstat := fun _ => .ok "3\t1\tsrc/app.py"
    log := fun _ => .ok "" }

/-- Concrete environment in which the generation API raises. -/
def envApiFail : Env :=
  { git := { showMessage := fun _ => .ok "Add login"
             showNameStatus := fun _ => .ok "M\tsrc/app.py"
             showNumstat := fun _ => .ok "3\t1\tsrc/app.py"
             log := fun _ => .ok "aaaa1111|Alice|2024-01-01|Add login" }
    api := fun _ => .error "Rate limit exceeded" }

/-- Concrete environment in which `git log` fails (e.g. not a repository). -/
def envLogFail : Env :=
  { git := { showMessage := fun _ => .ok "m"
             showNameStatus := fun _ => .ok "c"
             showNumstat := fun _ => .ok "1\t1\tf"
             log := fun _ => .error "fatal: not a git repository" }
    api := fun _ => .ok "should never be requested" }

/-- A `git log` stdout listing two commits, the first of which has the
delimiter `|` inside its subject line. -/
def logOutputWithPipe : String :=
  "aaaa1111|Alice|2024-01-01|Fix a|b bug\nbbbb2222|Bob|2024-01-02|Fix crash"

/-- Concrete enriched commit whose full message extends the subject line. -/
def detailLonger : CommitDetail :=
  { hash := "aaaa1111"
    full_message := "Fix bug\n\nLonger explanation."
    changes := "M\tsrc/app.py"
    diff_stats := [⟨"src/app.py", "3", "1"⟩] }

/-- Concrete enriched commit carrying `detailLonger`. -/
def commitLonger : EnrichedCommit :=
  { hash := "aaaa1111", author := "Alice", date := "2024-01-01",
    message := "Fix bug", detail := some detailLonger }

/-! ### Helper lemmas (shared by several claim proofs) -/

/-- Two `String.mk` values are equal exactly when their character lists are. -/
theorem mk_inj (l l2 : List Char) : String.mk l = String.mk l2 ↔ l = l2 :=
  String.ext_iff

/-- A whitespace character is neither a digit nor the dash marker. -/
theorem pyIsSpace_elim (c : Char) (h : pyIsSpace c = true) :
    c.isDigit = false ∧ c ≠ '-' := by
  simp only [pyIsSpace, Bool.or_eq_true, beq_iff_eq] at h
  rcases h with ((((h | h) | h) | h) | h) | h <;> subst h <;> exact ⟨by decide, by decide⟩

/-- A digit is not whitespace. -/
theorem isDigit_pyIsSpace (c : Char) (h : c.isDigit = true) : pyIsSpace c = false := by
  cases hs : pyIsSpace c
  · rfl
  · exact absurd h (by simp [(pyIsSpace_elim c hs).1])

/-- `takeWhile`/`dropWhile` split a list at the boundary between a block that
satisfies the predicate and a remainder whose head does not. -/
theorem span_append (P : Char → Bool) :
    ∀ (l r : List Char), (∀ c ∈ l, P c = true) → (∀ c, r.head? = some c → P c = false) →
      (l ++ r).takeWhile P = l ∧ (l ++ r).dropWhile P = r := by
  intro l
  induction l with
  | nil =>
    intro r _ hr
    cases r with
    | nil => exact ⟨rfl, rfl⟩
    | cons c t =>
      have hc := hr c rfl
      simp [List.takeWhile_cons, List.dropWhile_cons, hc]
  | cons c t ih =>
    intro r hl hr
    have hc := hl c (by simp)
    have iht := ih r (fun x hx => hl x (by simp [hx])) hr
    simp [List.takeWhile_cons, List.dropWhile_cons, hc, iht.1, iht.2]

/-- The regex group `(\d+|-)` consumes exactly a leading digit run (or dash)
when what follows starts with whitespace. -/
theorem parseNumToken_append (g rest : List Char)
    (hg : (g ≠ [] ∧ ∀ c ∈ g, c.isDigit = true) ∨ g = ['-'])
    (hrest : ∀ c, rest.head? = some c → pyIsSpace c = true) :
    parseNumToken (g ++ rest) = some (g, rest) := by
  rcases hg with ⟨hne, hdig⟩ | rfl
  · rcases g with _ | ⟨c, t⟩
    · exact absurd rfl hne
    · have hc := hdig c (by simp)
      have hspan := span_append Char.isDigit (c :: t) rest hdig
        (fun x hx => (pyIsSpace_elim x (hrest x hx)).1)
      have heq : c :: (t ++ rest) = (c :: t) ++ rest := rfl
      simp only [List.cons_append, parseNumToken, hc, if_true]
      rw [heq, hspan.1, hspan.2]
  · rfl

/-- A nonempty list is not `isEmpty`. -/
theorem isEmpty_false_of_ne_nil {l : List Char} (h : l ≠ []) : l.isEmpty = false := by
  rcases l with _ | ⟨c, t⟩
  · exact absurd rfl h
  · rfl

/-- Core behavior of the numstat matcher on a line of the shape the pattern
expects: the three groups capture the digit-run-or-dash tokens and the whole
remainder after the second whitespace run. -/
theorem numstat_capture_main (g1 w1 g2 w2 p : List Char)
    (hg1 : (g1 ≠ [] ∧ ∀ c ∈ g1, c.isDigit = true) ∨ g1 = ['-'])
    (hg2 : (g2 ≠ [] ∧ ∀ c ∈ g2, c.isDigit = true) ∨ g2 = ['-'])
    (hw1ne : w1 ≠ []) (hw1 : ∀ c ∈ w1, pyIsSpace c = true)
    (hw2ne : w2 ≠ []) (hw2 : ∀ c ∈ w2, pyIsSpace c = true)
    (hpne : p ≠ []) (hphead : pyIsSpace p.headI = false) :
    reMatchNumstat (g1 ++ (w1 ++ (g2 ++ (w2 ++ p)))) = some (g1, g2, p) := by
  have hphead2 : ∀ c, p.head? = some c → pyIsSpace c = false := by
    intro c hc
    rcases p with _ | ⟨pc, pt⟩
    · exact absurd rfl hpne
    · simp only [List.head?_cons, Option.some.injEq] at hc
      subst hc; exact hphead
  have hg2head : ∀ c, (g2 ++ (w2 ++ p)).head? = some c → pyIsSpace c = false := by
    intro c hc
    rcases hg2 with ⟨hne, hdig⟩ | rfl
    · rcases g2 with _ | ⟨c2, t2⟩
      · exact absurd rfl hne
      · simp only [List.cons_append, List.head?_cons, Option.some.injEq] at hc
        subst hc; exact isDigit_pyIsSpace c2 (hdig c2 (by simp))
    · simp only [List.cons_append, List.head?_cons, Option.some.injEq] at hc
      subst hc; decide
  have h1 : parseNumToken (g1 ++ (w1 ++ (g2 ++ (w2 ++ p)))) =
      some (g1, w1 ++ (g2 ++ (w2 ++ p))) := by
    apply parseNumToken_append _ _ hg1
    intro c hc
    rcases w1 with _ | ⟨wc, wt⟩
    · exact absurd rfl hw1ne
    · simp only [List.cons_append, List.head?_cons, Option.some.injEq] at hc
      subst hc; exact hw1 wc (by simp)
  have hspan1 := span_append pyIsSpace w1 (g2 ++ (w2 ++ p)) hw1 hg2head
  have h2 : parseNumToken (g2 ++ (w2 ++ p)) = some (g2, w2 ++ p) := by
    apply parseNumToken_append _ _ hg2
    intro c hc
    rcases w2 with _ | ⟨wc, wt⟩
    · exact absurd rfl hw2ne
    · simp only [List.cons_append, List.head?_cons, Option.some.injEq] at hc
      subst hc; exact hw2 wc (by simp)
  have hspan2 := span_append pyIsSpace w2 p hw2 hphead2
  unfold reMatchNumstat
  rw [h1]
  simp only [hspan1.1, hspan1.2, isEmpty_false_of_ne_nil hw1ne]
  rw [if_neg (by simp)]
  rw [h2]
  simp only [hspan2.1, hspan2.2, isEmpty_false_of_ne_nil hw2ne,
    isEmpty_false_of_ne_nil hpne]
  rw [if_neg (by simp), if_neg (by simp)]

/-- The empty-line guard of the parsing loop is subsumed by the four-field
check: `parseLogLine` is determined by the split alone. -/
theorem parseLogLine_eq (line : List Char) :
    parseLogLine line =
      match pySplit '|' line with
      | [h, a, d, m] => some ⟨String.mk h, String.mk a, String.mk d, String.mk m⟩
      | _ => none := by
  cases line <;> rfl

end GitChangelog

namespace GitChangelog

/-! ### Claim theorems -/

/-- Claim C1 (code bug in the source): in a run where the history is nonempty
and the external text-generation request succeeds, `generate_changelog` is
claimed to return the generated text to its caller.  The code does not: the
success path binds the response and falls off the end of the function, so the
caller receives `None`.  Evaluated here on a concrete environment where the
API was invoked (second component `true`) and succeeded with a changelog text,
yet the returned value is `none`. -/
theorem generate_changelog_success_returns_none :
    generate_changelog envSuccess 1 = (none, true) ∧
      envSuccess.api (prepare_prompt (enrichAll envSuccess.git
          (get_recent_commits (envSuccess.git.log 1)))) =
        Except.ok "## Changelog\n\n### Features\n- Added login" :=
  ⟨by decide, rfl⟩

/-- Claim C2: `get_commit_details` returns a fully populated record exactly
when all three sub-fetches succeed; on the first failure the remaining
sub-fetches are abandoned (the call trace stops there) and the empty record is
returned, never a partially populated one; and the enrichment loop treats each
commit independently of the others (the i-th enriched commit depends only on
the i-th summary and the details fetched for its own hash). -/
theorem get_commit_details_all_or_nothing (env : GitEnv) (h : String) :
    ((∃ dd, (get_commit_details env h).1 = some dd) ↔
      (env.showMessage h).isOk ∧ (env.showNameStatus h).isOk ∧ (env.showNumstat h).isOk)
    ∧ (∀ e, env.showMessage h = .error e →
        get_commit_details env h = (none, [GitCall.message h]))
    ∧ (∀ m e, env.showMessage h = .ok m → env.showNameStatus h = .error e →
        get_commit_details env h = (none, [GitCall.message h, GitCall.nameStatus h]))
    ∧ (∀ m c e, env.showMessage h = .ok m → env.showNameStatus h = .ok c →
        env.showNumstat h = .error e →
        get_commit_details env h =
          (none, [GitCall.message h, GitCall.nameStatus h, GitCall.numstat h]))
    ∧ (∀ m c ns, env.showMessage h = .ok m → env.showNameStatus h = .ok c →
        env.showNumstat h = .ok ns →
        get_commit_details env h =
          (some ⟨h, String.mk (pyStrip m.data), String.mk (pyStrip c.data), parse_numstat ns⟩,
           [GitCall.message h, GitCall.nameStatus h, GitCall.numstat h]))
    ∧ (∀ (genv : GitEnv) (commits : List CommitSummary) (i : Nat),
        (enrichAll genv commits)[i]? =
          (commits[i]?).map fun cm => enrich cm (get_commit_details genv cm.hash).1) := by
  refine ⟨?_, ?_, ?_, ?_, ?_, ?_⟩
  · unfold get_commit_details
    cases hm : env.showMessage h <;> cases hc : env.showNameStatus h <;>
      cases hn : env.showNumstat h <;> simp [Except.isOk, Except.toBool]
  · intro e he; unfold get_commit_details; rw [he]
  · intro m e hm he; unfold get_commit_details; rw [hm, he]
  · intro m c e hm hc he; unfold get_commit_details; rw [hm, hc, he]
  · intro m c ns hm hc hn; unfold get_commit_details; rw [hm, hc, hn]
  · intro genv commits i; simp [enrichAll]

/-- Witness for C2 at a concrete environment: the first sub-fetch fails, so
the result is the empty record and only that one invocation was performed. -/
theorem get_commit_details_all_or_nothing_witness :
    get_commit_details envMsgFail "deadbeef" = (none, [GitCall.message "deadbeef"]) :=
  (get_commit_details_all_or_nothing envMsgFail "deadbeef").2.1 "fatal: bad object" rfl

/-- Claim C3: whenever the external generation request raises (any exception
text `e`) on a nonempty history, `generate_changelog` returns the
human-readable wrapper string around the exception text — the exception never
propagates, the caller always receives a value. -/
theorem generate_changelog_wraps_api_error (env : Env) (n : Int) (e : String)
    (hne : get_recent_commits (env.git.log n) ≠ [])
    (herr : env.api (prepare_prompt (enrichAll env.git
        (get_recent_commits (env.git.log n)))) = .error e) :
    generate_changelog env n = (some ("Error generating changelog: " ++ e), true) := by
  simp [generate_changelog, List.isEmpty_iff, hne, herr]

/-- Witness for C3: on a concrete environment where the API raises
"Rate limit exceeded", the returned value is the wrapped error string. -/
theorem generate_changelog_wraps_api_error_witness :
    generate_changelog envApiFail 1 =
      (some ("Error generating changelog: " ++ "Rate limit exceeded"), true) :=
  generate_changelog_wraps_api_error envApiFail 1 "Rate limit exceeded" (by decide) rfl

/-- Claim C4: whenever the history reader yields an empty sequence,
`generate_changelog` returns the fixed no-history message and never invokes
the generation API (second component `false`); and a failed log invocation is
one way the sequence comes out empty. -/
theorem no_history_short_circuits (env : Env) (n : Int) :
    (get_recent_commits (env.git.log n) = [] →
      generate_changelog env n = (some noHistoryMsg, false))
    ∧ (∀ msg, env.git.log n = .error msg → get_recent_commits (env.git.log n) = []) := by
  constructor
  · intro hempty
    simp [generate_changelog, hempty]
  · intro msg herr
    simp [get_recent_commits, herr]

/-- Witness for C4: with a failing `git log`, the pipeline returns the fixed
message and the API is not invoked. -/
theorem no_history_short_circuits_witness :
    generate_changelog envLogFail 3 = (some noHistoryMsg, false) :=
  (no_history_short_circuits envLogFail 3).1
    ((no_history_short_circuits envLogFail 3).2 "fatal: not a git repository" rfl)

/-- Claim C5: a log line parses to a `CommitSummary` exactly when splitting it
on `|` yields exactly four fields (in which case the fields are taken in
order); any line splitting into fewer or more than four fields is silently
dropped; and the surviving summaries are the in-order `filterMap` of the
output lines, so they preserve output-line order. -/
theorem log_line_four_fields :
    (∀ (line h a d m : List Char),
      parseLogLine line = some ⟨String.mk h, String.mk a, String.mk d, String.mk m⟩ ↔
        pySplit '|' line = [h, a, d, m])
    ∧ (∀ line : List Char, (pySplit '|' line).length ≠ 4 → parseLogLine line = none)
    ∧ (∀ stdout : String,
        get_recent_commits (Except.ok stdout) =
          (pySplit '\n' (pyStrip stdout.data)).filterMap parseLogLine) := by
  refine ⟨?_, ?_, fun _ => rfl⟩
  · intro line h a d m
    rw [parseLogLine_eq]
    split
    next h1 a1 d1 m1 heq =>
      rw [heq]
      simp [mk_inj]
    next hne =>
      constructor
      · intro hc; exact absurd hc (by simp)
      · intro hc; exact absurd hc (hne h a d m)
  · intro line hlen
    rw [parseLogLine_eq]
    split
    next h1 a1 d1 m1 heq => rw [heq] at hlen; simp at hlen
    next hne => rfl

/-- Witness for C5: a well-formed four-field line parses to its four fields. -/
theorem log_line_four_fields_witness :
    parseLogLine ("aaaa1111|Alice|2024-01-01|Add login".data) =
      some ⟨String.mk "aaaa1111".data, String.mk "Alice".data,
        String.mk "2024-01-01".data, String.mk "Add login".data⟩ :=
  (log_line_four_fields.1 _ _ _ _ _).mpr (by decide)

/-- Claim C6: for an enriched commit carrying a detail part, the emitted block
contains the `Details:` line (with the full message verbatim) exactly when the
full message differs from the subject message, and omits it when they are
equal. -/
theorem details_line_condition (c : EnrichedCommit) (d : CommitDetail)
    (hd : c.detail = some d) :
    (d.full_message ≠ c.message →
      commitBlock c =
        summaryLines c ++ ("Details: " ++ d.full_message ++ "\n") ++ (statLines d ++ "\n"))
    ∧ (d.full_message = c.message →
      commitBlock c = summaryLines c ++ (statLines d ++ "\n")) := by
  constructor
  · intro hne
    simp [commitBlock, summaryLines, statLines, hd, hne, String.append_assoc]
  · intro heq
    simp [commitBlock, summaryLines, statLines, hd, heq, String.append_assoc]

/-- Witness for C6: a commit whose full message extends the subject gets a
`Details:` line. -/
theorem details_line_condition_witness :
    commitBlock commitLonger =
      summaryLines commitLonger ++ ("Details: " ++ detailLonger.full_message ++ "\n") ++
        (statLines detailLonger ++ "\n") :=
  (details_line_condition commitLonger detailLonger rfl).1 (by decide)

/-- Claim C7: the non-numeric marker `-` is preserved as a literal sentinel:
a numstat line `-<TAB>-<TAB>path` parses to a `FileChange` storing the string
`"-"` in both count fields (not `0`), and the prompt renders such a stat as
`(+- / --)`-style text verbatim. -/
theorem dash_marker_preserved :
    (∀ (c : Char) (p : List Char), pyIsSpace c = false → '\n' ∉ (c :: p) →
      reMatchNumstat ('-' :: '\t' :: '-' :: '\t' :: c :: p) = some (['-'], ['-'], c :: p))
    ∧ (∀ f : String, fileLine ⟨f, "-", "-"⟩ = "File: " ++ f ++ " (+- / --)\n") := by
  constructor
  · intro c p hc _
    have hmain := numstat_capture_main ['-'] ['\t'] ['-'] ['\t'] (c :: p)
      (Or.inr rfl) (Or.inr rfl) (by simp) (by decide) (by simp) (by decide)
      (by simp) (by simpa using hc)
    simpa using hmain
  · intro f
    have hlit : (" (+" : String) ++ ("-" ++ (" / -" ++ ("-" ++ ")\n"))) = " (+- / --)\n" := by
      decide
    simp only [fileLine, String.append_assoc]
    rw [hlit]

/-- Witness for C7: a binary-file numstat line for `image.png` keeps both dash
markers. -/
theorem dash_marker_preserved_witness :
    reMatchNumstat ('-' :: '\t' :: '-' :: '\t' :: 'i' :: "mage.png".data) =
      some (['-'], ['-'], 'i' :: "mage.png".data) :=
  dash_marker_preserved.1 'i' "mage.png".data (by decide) (by decide)

/-- Claim C8: on a line of the shape additions-or-dash, whitespace,
deletions-or-dash, whitespace, remainder (remainder not itself starting with
whitespace, newline-free as all split lines are), the matcher captures the two
tokens and the entire remainder — internal whitespace included — as the file
path; a line starting with any other character fails the pattern and is
skipped; and the numstat parser is the in-order `filterMap` of the matcher
over the output lines, so skipped lines do not affect the other parsed
stats. -/
theorem numstat_pattern_behavior :
    (∀ (g1 w1 g2 w2 p : List Char),
        ((g1 ≠ [] ∧ ∀ c ∈ g1, c.isDigit = true) ∨ g1 = ['-']) →
        ((g2 ≠ [] ∧ ∀ c ∈ g2, c.isDigit = true) ∨ g2 = ['-']) →
        w1 ≠ [] → (∀ c ∈ w1, pyIsSpace c = true) →
        w2 ≠ [] → (∀ c ∈ w2, pyIsSpace c = true) →
        p ≠ [] → pyIsSpace p.headI = false → '\n' ∉ p →
        reMatchNumstat (g1 ++ (w1 ++ (g2 ++ (w2 ++ p)))) = some (g1, g2, p))
    ∧ (∀ (c : Char) (rest : List Char), c.isDigit = false → c ≠ '-' →
        reMatchNumstat (c :: rest) = none)
    ∧ (∀ stdout : String,
        parse_numstat stdout =
          (pySplit '\n' (pyStrip stdout.data)).filterMap fun line =>
            (reMatchNumstat line).map fun g =>
              { file := String.mk g.2.2, additions := String.mk g.1,
                deletions := String.mk g.2.1 }) := by
  refine ⟨?_, ?_, fun _ => rfl⟩
  · intro g1 w1 g2 w2 p hg1 hg2 hw1ne hw1 hw2ne hw2 hpne hphead _
    exact numstat_capture_main g1 w1 g2 w2 p hg1 hg2 hw1ne hw1 hw2ne hw2 hpne hphead
  · intro c rest hcd hcd2
    unfold reMatchNumstat parseNumToken
    simp [hcd, hcd2]

/-- Witness for C8: a numstat line whose path contains a space yields a single
`FileChange` whose path is the full remainder `src/my file.py`. -/
theorem numstat_pattern_behavior_witness :
    reMatchNumstat (['3'] ++ (['\t'] ++ (['1'] ++ (['\t'] ++ "src/my file.py".data)))) =
      some (['3'], ['1'], "src/my file.py".data) :=
  numstat_pattern_behavior.1 ['3'] ['\t'] ['1'] ['\t'] "src/my file.py".data
    (Or.inl ⟨by decide, by decide⟩) (Or.inl ⟨by decide, by decide⟩)
    (by decide) (by decide) (by decide) (by decide) (by decide) (by decide) (by decide)

/-- Claim C9: the dict merge leaves the summary's author, date and subject
message unchanged; the merged hash is the detail's hash key when a detail is
present, and any detail produced by `get_commit_details` carries exactly the
hash it was fetched with, so the enriched commit of the pipeline always keeps
the summary's hash; when the detail fetch fails (empty record) the enriched
commit is exactly the summary, and its prompt block consists of the summary
lines alone. -/
theorem enrich_preserves_summary_fields (c : CommitSummary) (d : Option CommitDetail) :
    (enrich c d).author = c.author ∧ (enrich c d).date = c.date ∧
      (enrich c d).message = c.message ∧
      (∀ dd, d = some dd → (enrich c d).hash = dd.hash) ∧
      (∀ (env : GitEnv) (h : String) (dd : CommitDetail),
        (get_commit_details env h).1 = some dd → dd.hash = h) ∧
      (∀ env : GitEnv, (enrich c (get_commit_details env c.hash).1).hash = c.hash) ∧
      (d = none → enrich c d = ⟨c.hash, c.author, c.date, c.message, none⟩) ∧
      (d = none → commitBlock (enrich c d) = summaryLines (enrich c d) ++ "\n") := by
  refine ⟨rfl, rfl, rfl, ?_, ?_, ?_, ?_, ?_⟩
  · intro dd hdd; subst hdd; rfl
  · intro env h dd hdd
    unfold get_commit_details at hdd
    cases hm : env.showMessage h <;> rw [hm] at hdd
    · simp at hdd
    · cases hc : env.showNameStatus h <;> rw [hc] at hdd
      · simp at hdd
      · cases hn : env.showNumstat h <;> rw [hn] at hdd
        · simp at hdd
        · simp at hdd; rw [← hdd]
  · intro env
    unfold get_commit_details
    cases hm : env.showMessage c.hash <;> simp [enrich]
    cases hc : env.showNameStatus c.hash <;> simp [enrich]
    cases hn : env.showNumstat c.hash <;> simp [enrich]
  · intro hd; subst hd; rfl
  · intro hd; subst hd
    simp [commitBlock, summaryLines, enrich, String.append_assoc]

/-- Witness for C9: merging the empty detail record leaves the summary
unchanged. -/
theorem enrich_preserves_summary_fields_witness :
    enrich ⟨"aaaa1111", "Alice", "2024-01-01", "Add login"⟩ none =
      ⟨"aaaa1111", "Alice", "2024-01-01", "Add login", none⟩ :=
  (enrich_preserves_summary_fields ⟨"aaaa1111", "Alice", "2024-01-01", "Add login"⟩
    none).2.2.2.2.2.2.1 rfl

/-- Claim C10: a successful log invocation can list more commits than the
reader returns: here the output lists two commits, but the first subject line
contains the delimiter `|`, splits into five fields, and is silently dropped,
so only one summary survives. -/
theorem pipe_in_subject_dropped :
    (pySplit '\n' (pyStrip logOutputWithPipe.data)).length = 2 ∧
      (pySplit '|' ("aaaa1111|Alice|2024-01-01|Fix a|b bug".data)).length = 5 ∧
      get_recent_commits (Except.ok logOutputWithPipe) =
        [⟨"bbbb2222", "Bob", "2024-01-02", "Fix crash"⟩] := by
  refine ⟨by decide, by decide, by decide⟩

end GitChangelog
